import Mathlib

/-!
Shallow embedding of `django_migration_fixture/__init__.py`.

The module is a thin adapter around Django primitives.  We embed it as
follows:

* A deserialized fixture record (`DeserializedObject`) becomes `DObj`:
  the model class name (`obj.object.__class__.__name__`) together with the
  instance dictionary (`obj.object.__dict__`) as an association list.
* The file system becomes `FS`, a map from absolute path to the list of
  records deserialization of that file yields.  The serializer itself
  (format chosen from the file extension) is outside the component and is
  absorbed into `FS`.
* Database-visible actions become an explicit `Effect` trace; the
  `post_migrate` signal registry for the handler becomes a `Bool`
  (connected / disconnected), and firing the signal is a step function.
* Exceptions become an `Option UnloadError` carried alongside the effects
  performed before the exception was raised (there is no transaction
  wrapping in the component, so earlier deletes survive a later raise).
-/

/-- A field value of a serialized model instance. -/
inductive Value where
  | int (n : Int)
  | str (s : String)
deriving DecidableEq, Repr

/-- A deserialized fixture record: the model class name together with the
instance `__dict__` (an association list, keys unique as in a Python dict). -/
structure DObj where
  model : String
  fields : List (String × Value)
deriving DecidableEq, Repr

/-- The app config delivered as `sender` of the `post_migrate` signal. -/
structure AppConfig where
  label : String
deriving DecidableEq, Repr

/-- The application module passed to `fixture`: its `__name__`, its
`__path__[0]`, and the app config Django associates with it. -/
structure AppModule where
  name : String
  path : String
  config : AppConfig
deriving DecidableEq, Repr

/-- `os.path.join` restricted to the two-argument relative form used here. -/
def path_join (a b : String) : String := a ++ "/" ++ b

/-- The file system: maps an absolute path to the deserialized records of
the fixture file stored there. -/
structure FS where
  files : String → List DObj

/-- A database row, for the unload path: the model it belongs to (keyed as
`app.__name__` ++ "." ++ class name) and its field values. -/
structure Row where
  model : String
  fields : List (String × Value)
deriving DecidableEq, Repr

/-- Database-visible effects of the component, in program order. -/
inductive Effect where
  | connect
  | disconnect
  | save (o : DObj)
  | seqReset (models : Finset String)
  | delete (model : String) (kwargs : List (String × Value))
deriving DecidableEq

/-- The low-level actions of `reset_db_sequences` itself. -/
inductive DbOp where
  | openCursor
  | execSQL (s : String)
  | closeCursor
deriving DecidableEq, Repr

/-- `reset_db_sequences(models)`: early return on an empty set, otherwise a
cursor is opened and every statement produced by the backend's
`sequence_reset_sql` generator (abstracted as `sqlGen`) is executed; the
`with` block closes the cursor. -/
def reset_db_sequences (sqlGen : List String → List String) (models : Finset String) :
    List DbOp :=
  if models = ∅ then []
  else
    DbOp.openCursor ::
      (sqlGen (models.sort (fun a b => a ≤ b))).map DbOp.execSQL ++ [DbOp.closeCursor]

/-- The `fixtures` argument of `fixture`: a single file name (a string) or a
list of file names. -/
inductive FixturesArg where
  | single (s : String)
  | many (l : List String)
deriving DecidableEq, Repr

/-- The configuration captured by the closures `fixture` returns. -/
structure FixtureAdapter where
  app : AppModule
  fixtures : List String
  fixtures_dir : String
  raise_does_not_exist : Bool
deriving DecidableEq, Repr

/-- `fixture(app, fixtures, fixtures_dir, raise_does_not_exist)`: a single
string is wrapped into a one-element list
(`if isinstance(fixtures, basestring): fixtures = [fixtures]`). -/
def fixture (app : AppModule) (fixtures : FixturesArg) (fixtures_dir : String)
    (raise_does_not_exist : Bool) : FixtureAdapter :=
  { app := app
    fixtures :=
      match fixtures with
      | .single s => [s]
      | .many l => l
    fixtures_dir := fixtures_dir
    raise_does_not_exist := raise_does_not_exist }

/-- `fixture_path = os.path.join(app.__path__[0], fixtures_dir)`. -/
def fixture_path (ad : FixtureAdapter) : String :=
  path_join ad.app.path ad.fixtures_dir

/-- `get_objects()`: iterate the fixture files in list order, open each one
under `fixture_path` and yield its deserialized records in file order. -/
def get_objects (fs : FS) (ad : FixtureAdapter) : List DObj :=
  (ad.fixtures.map (fun fx => fs.files (path_join (fixture_path ad) fx))).flatten

/-- The `k`-th call of the generator function `get_objects`: each call
re-opens the files and replays them from the start, so the iteration index
does not influence the result. -/
def iterate_stream (fs : FS) (ad : FixtureAdapter) (_k : Nat) : List DObj :=
  get_objects fs ad

/-- The set `models` accumulated by the load loop:
`models.add(obj.object._meta.model)` for each saved object. -/
def modelsOf (objs : List DObj) : Finset String :=
  objs.foldl (fun s o => insert o.model s) ∅

/-- One firing of `post_migrate` as seen by this adapter's `signal_handler`.
If the handler is no longer connected it is not called at all.  When called,
it runs its body only under `sender.label == "django_migration_fixture"`
(Django passes the sending app config both as `sender` and as the
`app_config` keyword argument, so the `assert` on `app_config.label` holds
whenever the guard does).  The body saves every object of the stream,
resets the sequences for the accumulated model set, and disconnects the
handler. -/
def handler_fire (fs : FS) (ad : FixtureAdapter) (sender : AppConfig) (connected : Bool) :
    Bool × List Effect :=
  if connected then
    if sender.label = "django_migration_fixture" then
      let objs := get_objects fs ad
      (false, objs.map Effect.save ++ [Effect.seqReset (modelsOf objs), Effect.disconnect])
    else (true, [])
  else (false, [])

/-- Events driving the adapter: the migration runner invoking the forward
callable, or `post_migrate` firing with some sender. -/
inductive Event where
  | invokeForward
  | postMigrate (sender : AppConfig)
deriving DecidableEq, Repr

/-- One step of the adapter: `load_fixture(app_config, schema_editor)` only
connects the handler (`signals.post_migrate.connect(signal_handler)`); a
`post_migrate` firing runs `handler_fire`. -/
def step (fs : FS) (ad : FixtureAdapter) (connected : Bool) : Event → Bool × List Effect
  | .invokeForward => (true, [Effect.connect])
  | .postMigrate sender => handler_fire fs ad sender connected

/-- A sequence of `post_migrate` firings, threading the connection state and
concatenating the effect traces. -/
def run_fires (fs : FS) (ad : FixtureAdapter) :
    Bool → List AppConfig → Bool × List Effect
  | c, [] => (c, [])
  | c, s :: rest =>
    let p := handler_fire fs ad s c
    let q := run_fires fs ad p.1 rest
    (q.1, p.2 ++ q.2)

/-- The lookup kwargs of the unload loop: `id` if present in the instance
dict, else `slug` if present, else the whole dict. -/
def chooseKwargs (fields : List (String × Value)) : List (String × Value) :=
  match fields.lookup "id" with
  | some v => [("id", v)]
  | none =>
    match fields.lookup "slug" with
    | some v => [("slug", v)]
    | none => fields

/-- `apps.get_model(app.__name__, obj.object.__class__.__name__)`, keyed as
a string. -/
def model_key (app : AppModule) (o : DObj) : String :=
  app.name ++ "." ++ o.model

/-- Whether a row satisfies `model.objects.get(**kwargs)`'s filter. -/
def rowMatches (r : Row) (model : String) (kwargs : List (String × Value)) : Bool :=
  r.model = model && kwargs.all fun kv => r.fields.lookup kv.1 = some kv.2

/-- Exceptions the unload loop can raise. -/
inductive UnloadError where
  | fixtureObjectDoesNotExist (model : String) (kwargs : List (String × Value))
  | multipleObjectsReturned (model : String) (kwargs : List (String × Value))
deriving DecidableEq, Repr

/-- The unload loop over the object stream.  For each object:
`model.objects.get(**kwargs)` finds the rows matching the chosen kwargs;
zero rows raises `model.DoesNotExist`, which the `except` turns into
`FixtureObjectDoesNotExist` exactly when `not raise_does_not_exist` (and
otherwise falls through to the next object); more than one row raises
`MultipleObjectsReturned`, which is not caught; exactly one row is deleted.
The result carries the final database, the deletes performed before any
raise, and the exception if one escaped. -/
def unload_go (app : AppModule) (raiseDNE : Bool) :
    List Row → List DObj → List Row × List Effect × Option UnloadError
  | db, [] => (db, [], none)
  | db, o :: rest =>
    let model := model_key app o
    let kwargs := chooseKwargs o.fields
    match db.filter (fun r => rowMatches r model kwargs) with
    | [] =>
      if !raiseDNE then (db, [], some (.fixtureObjectDoesNotExist model kwargs))
      else unload_go app raiseDNE db rest
    | [_] =>
      let p := unload_go app raiseDNE (db.filter fun r => !rowMatches r model kwargs) rest
      (p.1, Effect.delete model kwargs :: p.2.1, p.2.2)
    | _ :: _ :: _ => (db, [], some (.multipleObjectsReturned model kwargs))

/-- `unload_fixture(apps, schema_editor)`: run the unload loop over the
freshly re-opened object stream against the current database. -/
def unload_fixture (fs : FS) (ad : FixtureAdapter) (db : List Row) :
    List Row × List Effect × Option UnloadError :=
  unload_go ad.app ad.raise_does_not_exist db (get_objects fs ad)

/-! ### Effect classifiers and concrete instances used by witnesses -/

/-- Does an effect write to the database (save, sequence reset or delete)? -/
def isDbWrite : Effect → Bool
  | .save _ => true
  | .seqReset _ => true
  | .delete _ _ => true
  | .connect => false
  | .disconnect => false

/-- Is an effect an invocation of the sequence-reset helper? -/
def isSeqReset : Effect → Bool
  | .seqReset _ => true
  | _ => false

/-- Is an effect a save? -/
def isSave : Effect → Bool
  | .save _ => true
  | _ => false

/-- Number of sequence-reset invocations in a trace. -/
def seqResetCount (tr : List Effect) : Nat := tr.countP isSeqReset

/-- Number of saves in a trace. -/
def saveCount (tr : List Effect) : Nat := tr.countP isSave

/-- A one-record fixture object, as in the spec's running example. -/
def eggObj : DObj := ⟨"Egg", [("id", Value.int 1)]⟩

/-- A client application (not this library) owning a fixture. -/
def myapp : AppModule := ⟨"myapp", "/srv/myapp", ⟨"myapp"⟩⟩

/-- A file system holding one fixture file for `myapp`. -/
def fs0 : FS := ⟨fun p => if p = "/srv/myapp/fixtures/eggs.yaml" then [eggObj] else []⟩

/-- The adapter for `myapp` with the default `raise_does_not_exist=False`. -/
def ad0 : FixtureAdapter := fixture myapp (.single "eggs.yaml") "fixtures" false

/-- The same adapter with `raise_does_not_exist=True`. -/
def ad0R : FixtureAdapter := fixture myapp (.single "eggs.yaml") "fixtures" true

/-- The app config whose label is the hardcoded string tested by
`signal_handler`. -/
def senderDMF : AppConfig := ⟨"django_migration_fixture"⟩

/-- The database row corresponding to `eggObj` under `myapp`. -/
def eggRow : Row := ⟨"myapp.Egg", [("id", Value.int 1)]⟩

/-! ### Helper lemmas -/

/-- Every effect the unload loop emits is the deletion of some streamed
object keyed by its chosen kwargs. -/
theorem unload_go_effects (app : AppModule) (rd : Bool) :
    ∀ (objs : List DObj) (db : List Row) (e : Effect),
      e ∈ (unload_go app rd db objs).2.1 →
      ∃ o, o ∈ objs ∧ e = Effect.delete (model_key app o) (chooseKwargs o.fields) := by
  intro objs
  induction objs with
  | nil => intro db e he; simp [unload_go] at he
  | cons o rest ih =>
    intro db e he
    simp only [unload_go] at he
    split at he
    · split at he
      · simp at he
      · obtain ⟨o2, ho2, he2⟩ := ih db e he
        exact ⟨o2, List.mem_cons_of_mem _ ho2, he2⟩
    · simp only [List.mem_cons] at he
      rcases he with h | h
      · exact ⟨o, List.mem_cons_self _ _, h⟩
      · obtain ⟨o2, ho2, he2⟩ := ih _ e h
        exact ⟨o2, List.mem_cons_of_mem _ ho2, he2⟩
    · simp at he

/-! ### Claim theorems -/

/-- C10: calling `reset_db_sequences` with an empty model set is a complete
no-op: for any backend SQL generator it returns an empty action trace, so no
cursor is opened and no SQL statement is executed. -/
theorem C10_reset_empty_set_noop :
    ∀ sqlGen : List String → List String,
      reset_db_sequences sqlGen ∅ = [] ∧
      (reset_db_sequences sqlGen ∅).length = 0 := by
  intro sqlGen
  refine ⟨?_, ?_⟩ <;> simp [reset_db_sequences]

/-- C8: `fixture` called with a single fixture file name builds exactly the
adapter built from the one-element list of that name, so the object stream
and the unload operation coincide for the two call shapes. -/
theorem C8_single_name_normalized :
    ∀ (app : AppModule) (s dir : String) (rd : Bool),
      fixture app (.single s) dir rd = fixture app (.many [s]) dir rd ∧
      (∀ fs, get_objects fs (fixture app (.single s) dir rd) =
          get_objects fs (fixture app (.many [s]) dir rd)) ∧
      (∀ fs db, unload_fixture fs (fixture app (.single s) dir rd) db =
          unload_fixture fs (fixture app (.many [s]) dir rd) db) :=
  fun _ _ _ _ => ⟨rfl, fun _ => rfl, fun _ _ => rfl⟩

/-- C1: behaviour of the code at the failing input.  With the default
`raise_does_not_exist=False` and a fixture record whose row is absent, the
unload RAISES `FixtureObjectDoesNotExist`; with `raise_does_not_exist=True`
it silently continues.  This is the inverse of the flag's own name (and of
the claim), witnessing the inverted conditional on the except branch. -/
theorem C1_flag_conditional_inverted :
    (unload_fixture fs0 ad0 []).2.2 =
        some (UnloadError.fixtureObjectDoesNotExist "myapp.Egg" [("id", Value.int 1)]) ∧
    (unload_fixture fs0 ad0R []).2.2 = none ∧
    (unload_fixture fs0 ad0R []).2.1 = [] := by
  refine ⟨?_, ?_, ?_⟩ <;> decide

/-- C5: invoking the forward callable performs no database write: its whole
effect is connecting the signal handler, leaving the adapter armed; database
writes can only arise from a later firing of the post-migrate event. -/
theorem C5_forward_only_connects :
    ∀ (fs : FS) (ad : FixtureAdapter) (c : Bool),
      step fs ad c .invokeForward = (true, [Effect.connect]) ∧
      (∀ e ∈ (step fs ad c .invokeForward).2, isDbWrite e = false) ∧
      (∀ (ev : Event) (e : Effect), e ∈ (step fs ad c ev).2 → isDbWrite e = true →
        ∃ sender, ev = Event.postMigrate sender) := by
  intro fs ad c
  refine ⟨rfl, ?_, ?_⟩
  · intro e he
    simp only [step, List.mem_singleton] at he
    simp [he, isDbWrite]
  · intro ev e he hw
    cases ev with
    | invokeForward =>
      simp only [step, List.mem_singleton] at he
      rw [he] at hw
      simp [isDbWrite] at hw
    | postMigrate sender => exact ⟨sender, rfl⟩

/-- C5 witness: concrete instantiation — the connect effect of the forward
callable is not a database write, and a save effect arises only from a
post-migrate firing. -/
theorem C5_forward_only_connects_witness :
    isDbWrite Effect.connect = false ∧
    ∃ sender, Event.postMigrate senderDMF = Event.postMigrate sender :=
  ⟨(C5_forward_only_connects fs0 ad0 true).2.1 Effect.connect (by decide),
   (C5_forward_only_connects fs0 ad0 true).2.2 (Event.postMigrate senderDMF)
     (Effect.save eggObj) (by decide) (by decide)⟩

/-- C9: the reverse operation never resets sequences: every effect in any
unload trace is a deletion, so in particular no sequence-reset invocation
(and a fortiori no sequence-reset SQL) appears, for every fixture
configuration and database state. -/
theorem C9_unload_no_sequence_reset :
    ∀ (fs : FS) (ad : FixtureAdapter) (db : List Row) (e : Effect),
      e ∈ (unload_fixture fs ad db).2.1 →
      (∃ m k, e = Effect.delete m k) ∧ isSeqReset e = false := by
  intro fs ad db e he
  obtain ⟨o, _, rfl⟩ := unload_go_effects ad.app ad.raise_does_not_exist
    (get_objects fs ad) db e he
  exact ⟨⟨_, _, rfl⟩, rfl⟩

/-- C9 witness: a concrete unload that deletes the egg row emits a delete
effect and no sequence reset. -/
theorem C9_unload_no_sequence_reset_witness :
    (∃ m k, Effect.delete "myapp.Egg" [("id", Value.int 1)] = Effect.delete m k) ∧
    isSeqReset (Effect.delete "myapp.Egg" [("id", Value.int 1)]) = false :=
  C9_unload_no_sequence_reset fs0 ad0 [eggRow]
    (Effect.delete "myapp.Egg" [("id", Value.int 1)]) (by decide)

/-- C6: the lookup key used for each deletion follows the ordered policy of
the unload loop: an `id` field alone if present, else a `slug` field alone
if present, else the full set of serialized field values; and every delete
the unload emits is keyed by exactly that policy applied to the streamed
object. -/
theorem C6_delete_lookup_policy :
    (∀ (fields : List (String × Value)) v,
        fields.lookup "id" = some v → chooseKwargs fields = [("id", v)]) ∧
    (∀ (fields : List (String × Value)) v, fields.lookup "id" = none →
        fields.lookup "slug" = some v → chooseKwargs fields = [("slug", v)]) ∧
    (∀ fields : List (String × Value), fields.lookup "id" = none →
        fields.lookup "slug" = none → chooseKwargs fields = fields) ∧
    (∀ (app : AppModule) (rd : Bool) (db : List Row) (objs : List DObj) (e : Effect),
        e ∈ (unload_go app rd db objs).2.1 →
        ∃ o, o ∈ objs ∧ e = Effect.delete (model_key app o) (chooseKwargs o.fields)) := by
  refine ⟨?_, ?_, ?_, fun app rd db objs => unload_go_effects app rd objs db⟩
  · intro fields v h; simp [chooseKwargs, h]
  · intro fields v h1 h2; simp [chooseKwargs, h1, h2]
  · intro fields h1 h2; simp [chooseKwargs, h1, h2]

/-- C6 witness: concrete instantiations of the three policy cases and of the
trace characterization. -/
theorem C6_delete_lookup_policy_witness :
    chooseKwargs [("id", Value.int 1), ("slug", Value.str "egg")] = [("id", Value.int 1)] ∧
    chooseKwargs [("slug", Value.str "egg"), ("name", Value.str "x")] =
      [("slug", Value.str "egg")] ∧
    chooseKwargs [("name", Value.str "x")] = [("name", Value.str "x")] ∧
    ∃ o, o ∈ [eggObj] ∧
      Effect.delete "myapp.Egg" [("id", Value.int 1)] =
        Effect.delete (model_key myapp o) (chooseKwargs o.fields) :=
  ⟨C6_delete_lookup_policy.1 _ _ (by decide),
   C6_delete_lookup_policy.2.1 _ _ (by decide) (by decide),
   C6_delete_lookup_policy.2.2.1 _ (by decide) (by decide),
   C6_delete_lookup_policy.2.2.2 myapp false [eggRow] [eggObj]
     (Effect.delete "myapp.Egg" [("id", Value.int 1)]) (by decide)⟩

/-- C2 counterexample: for the adapter owned by `myapp`, a post-migrate
firing whose sender is NOT the owning application (its label is the
hardcoded string `"django_migration_fixture"`) does run the load body,
while a firing whose sender IS the owning application runs nothing.  The
guard compares against a hardcoded label, not the owning application. -/
theorem C2_counterexample_hardcoded_label :
    ad0.app.config.label = "myapp" ∧
    (senderDMF.label == ad0.app.config.label) = false ∧
    Effect.seqReset (modelsOf [eggObj]) ∈ (handler_fire fs0 ad0 senderDMF true).2 ∧
    (handler_fire fs0 ad0 myapp.config true).2 = [] := by
  refine ⟨rfl, by decide, by decide, by decide⟩

/-- C2 amended: the handler executes its load body exactly when the firing
sender's label equals the hardcoded string `"django_migration_fixture"`
(this library's own app label), irrespective of the adapter's owning
application; for any other sender the firing has no effect. -/
theorem C2_amended_guard_is_hardcoded :
    ∀ (fs : FS) (ad : FixtureAdapter) (sender : AppConfig),
      ((∃ M, Effect.seqReset M ∈ (handler_fire fs ad sender true).2) ↔
        sender.label = "django_migration_fixture") ∧
      (sender.label ≠ "django_migration_fixture" →
        (handler_fire fs ad sender true).2 = []) := by
  intro fs ad sender
  by_cases h : sender.label = "django_migration_fixture"
  · refine ⟨⟨fun _ => h, fun _ => ?_⟩, fun hn => absurd h hn⟩
    exact ⟨modelsOf (get_objects fs ad), by simp [handler_fire, h]⟩
  · refine ⟨⟨fun ⟨M, hM⟩ => ?_, fun hl => absurd hl h⟩, fun _ => by simp [handler_fire, h]⟩
    simp [handler_fire, h] at hM

/-- C2 amended witness: with the owning-app sender nothing happens, with the
hardcoded-label sender the load body runs. -/
theorem C2_amended_guard_is_hardcoded_witness :
    (handler_fire fs0 ad0 myapp.config true).2 = [] ∧
    ∃ M, Effect.seqReset M ∈ (handler_fire fs0 ad0 senderDMF true).2 :=
  ⟨(C2_amended_guard_is_hardcoded fs0 ad0 myapp.config).2 (by decide),
   (C2_amended_guard_is_hardcoded fs0 ad0 senderDMF).1.mpr rfl⟩

/-- Once the handler is disconnected, any further sequence of firings leaves
it disconnected and produces no effect. -/
theorem run_fires_disconnected (fs : FS) (ad : FixtureAdapter) :
    ∀ senders : List AppConfig, run_fires fs ad false senders = (false, []) := by
  intro senders
  induction senders with
  | nil => rfl
  | cons s rest ih => simp [run_fires, handler_fire, ih]

/-- Save effects contribute nothing to the sequence-reset count. -/
theorem countP_isSeqReset_saves (objs : List DObj) :
    (objs.map Effect.save).countP isSeqReset = 0 := by
  induction objs with
  | nil => rfl
  | cons o rest ih => simp [List.countP_cons, isSeqReset, ih]

/-- Each streamed object contributes exactly one save effect. -/
theorem countP_isSave_saves (objs : List DObj) :
    (objs.map Effect.save).countP isSave = objs.length := by
  induction objs with
  | nil => rfl
  | cons o rest ih => simp [List.countP_cons, isSave, ih]

/-- C4: the load body runs at most once per process run: over any sequence
of post-migrate firings, from any connection state, at most one
sequence-reset invocation (one load pass) appears in the trace, and from the
disconnected state every further firing is a no-op. -/
theorem C4_load_runs_at_most_once :
    ∀ (fs : FS) (ad : FixtureAdapter) (c : Bool) (senders : List AppConfig),
      seqResetCount (run_fires fs ad c senders).2 ≤ 1 ∧
      (run_fires fs ad false senders).2 = [] := by
  intro fs ad c senders
  refine ⟨?_, by rw [run_fires_disconnected]⟩
  induction senders generalizing c with
  | nil => simp [run_fires, seqResetCount]
  | cons s rest ih =>
    cases c with
    | false =>
      rw [show run_fires fs ad false (s :: rest) = (false, []) from
        run_fires_disconnected fs ad (s :: rest)]
      simp [seqResetCount]
    | true =>
      by_cases h : s.label = "django_migration_fixture"
      · simp only [run_fires, handler_fire, h, if_true, if_pos]
        rw [run_fires_disconnected]
        simp [seqResetCount, List.countP_append, countP_isSeqReset_saves,
          List.countP_cons, isSeqReset]
      · simpa [run_fires, handler_fire, h] using ih true

/-- Membership in the accumulated model set, generalized over the initial
accumulator of the fold. -/
theorem mem_foldl_insert (m : String) :
    ∀ (objs : List DObj) (s : Finset String),
      m ∈ objs.foldl (fun acc o => insert o.model acc) s ↔
        m ∈ s ∨ ∃ o ∈ objs, o.model = m := by
  intro objs
  induction objs with
  | nil => intro s; simp
  | cons o rest ih =>
    intro s
    rw [List.foldl_cons, ih]
    simp only [Finset.mem_insert, List.mem_cons]
    constructor
    · rintro (⟨h | h⟩ | ⟨o2, ho2, hm⟩)
      · exact Or.inr ⟨o, Or.inl rfl, h.symm⟩
      · exact Or.inl h
      · exact Or.inr ⟨o2, Or.inr ho2, hm⟩
    · rintro (h | ⟨o2, h2 | h2, hm⟩)
      · exact Or.inl (Or.inr h)
      · exact Or.inl (Or.inl (h2 ▸ hm.symm))
      · exact Or.inr ⟨o2, h2, hm⟩

/-- The model set the load loop hands to the sequence reset is exactly the
set of models of the streamed objects. -/
theorem mem_modelsOf (m : String) (objs : List DObj) :
    m ∈ modelsOf objs ↔ ∃ o ∈ objs, o.model = m := by
  simpa using mem_foldl_insert m objs ∅

/-- C3: in a load pass over N streamed records, there is exactly one
sequence-reset invocation, it sits at a trace position strictly after all N
saves, and the model set it covers is exactly the set of model types of the
saved records. -/
theorem C3_one_reset_after_all_saves :
    ∀ (fs : FS) (ad : FixtureAdapter) (sender : AppConfig),
      sender.label = "django_migration_fixture" →
      seqResetCount (handler_fire fs ad sender true).2 = 1 ∧
      saveCount (handler_fire fs ad sender true).2 = (get_objects fs ad).length ∧
      ∃ (M : Finset String) (k : Nat),
        ((handler_fire fs ad sender true).2)[k]? = some (Effect.seqReset M) ∧
        (∀ (i : Nat) (o : DObj),
          ((handler_fire fs ad sender true).2)[i]? = some (Effect.save o) → i < k) ∧
        (∀ m, m ∈ M ↔ ∃ o ∈ get_objects fs ad, o.model = m) := by
  intro fs ad sender h
  have htr : (handler_fire fs ad sender true).2 =
      (get_objects fs ad).map Effect.save ++
        [Effect.seqReset (modelsOf (get_objects fs ad)), Effect.disconnect] := by
    simp [handler_fire, h]
  refine ⟨?_, ?_, modelsOf (get_objects fs ad), (get_objects fs ad).length, ?_, ?_,
    fun m => mem_modelsOf m (get_objects fs ad)⟩
  · rw [htr]
    simp [seqResetCount, List.countP_append, countP_isSeqReset_saves,
      List.countP_cons, isSeqReset]
  · rw [htr]
    simp [saveCount, List.countP_append, countP_isSave_saves, List.countP_cons, isSave]
  · rw [htr, List.getElem?_append_right (by simp)]
    simp
  · intro i o hio
    by_contra hk
    push_neg at hk
    rw [htr, List.getElem?_append_right (by simpa using hk)] at hio
    have hmem : Effect.save o ∈
        [Effect.seqReset (modelsOf (get_objects fs ad)), Effect.disconnect] :=
      List.getElem?_mem hio
    simp at hmem

/-- C3 witness: the theorem instantiated at the one-record egg fixture and
the matching sender. -/
theorem C3_one_reset_after_all_saves_witness :
    seqResetCount (handler_fire fs0 ad0 senderDMF true).2 = 1 ∧
    saveCount (handler_fire fs0 ad0 senderDMF true).2 = (get_objects fs0 ad0).length ∧
    ∃ (M : Finset String) (k : Nat),
      ((handler_fire fs0 ad0 senderDMF true).2)[k]? = some (Effect.seqReset M) ∧
      (∀ (i : Nat) (o : DObj),
        ((handler_fire fs0 ad0 senderDMF true).2)[i]? = some (Effect.save o) → i < k) ∧
      (∀ m, m ∈ M ↔ ∃ o ∈ get_objects fs0 ad0, o.model = m) :=
  C3_one_reset_after_all_saves fs0 ad0 senderDMF rfl

/-- The per-file deserialized object lists, in fixture-list order. -/
def file_objects (fs : FS) (ad : FixtureAdapter) : List (List DObj) :=
  ad.fixtures.map fun fx => fs.files (path_join (fixture_path ad) fx)

/-- Number of objects the stream yields before reaching file `i`. -/
def stream_offset (fs : FS) (ad : FixtureAdapter) (i : Nat) : Nat :=
  (((file_objects fs ad).take i).map List.length).sum

/-- Position of element `j` of block `i` in a flattened list of blocks. -/
theorem flatten_getElem (α : Type) :
    ∀ (ls : List (List α)) (i : Nat) (hi : i < ls.length) (j : Nat)
      (hj : j < (ls.get ⟨i, hi⟩).length),
      ls.flatten[(((ls.take i).map List.length).sum + j)]? =
        some ((ls.get ⟨i, hi⟩).get ⟨j, hj⟩) := by
  intro ls
  induction ls with
  | nil => intro i hi; simp at hi
  | cons l rest ih =>
    intro i hi j hj
    cases i with
    | zero =>
      have hj2 : j < l.length := hj
      rw [List.take_zero, List.map_nil, List.sum_nil, Nat.zero_add, List.flatten_cons,
        List.getElem?_append_left hj2, List.getElem?_eq_getElem hj2]
      rfl
    | succ i2 =>
      have hi2 : i2 < rest.length := by
        simp only [List.length_cons] at hi
        omega
      have hj2 : j < (rest.get ⟨i2, hi2⟩).length := hj
      rw [List.take_succ_cons, List.map_cons, List.sum_cons, List.flatten_cons,
        Nat.add_assoc,
        List.getElem?_append_right (Nat.le_add_right _ _),
        Nat.add_sub_cancel_left]
      exact ih i2 hi2 j hj2

/-- C7: the deserialization stream yields records in fixture-list order
and, within each file, in file order: the record at stream position
(offset of file `i`) + `j` is record `j` of file `i`; and re-iterating the
stream any number of times replays exactly the same sequence. -/
theorem C7_stream_order_and_restartable :
    ∀ (fs : FS) (ad : FixtureAdapter) (i : Nat) (hi : i < (file_objects fs ad).length)
      (j : Nat) (hj : j < ((file_objects fs ad).get ⟨i, hi⟩).length),
      (get_objects fs ad)[stream_offset fs ad i + j]? =
        some (((file_objects fs ad).get ⟨i, hi⟩).get ⟨j, hj⟩) ∧
      (∀ k1 k2 : Nat, iterate_stream fs ad k1 = iterate_stream fs ad k2) := by
  intro fs ad i hi j hj
  exact ⟨flatten_getElem DObj (file_objects fs ad) i hi j hj, fun _ _ => rfl⟩

/-- C7 witness: the first record of the first file of the concrete egg
fixture sits at stream position 0, on every iteration. -/
theorem C7_stream_order_and_restartable_witness :
    (get_objects fs0 ad0)[stream_offset fs0 ad0 0 + 0]? =
      some (((file_objects fs0 ad0).get ⟨0, by decide⟩).get ⟨0, by decide⟩) ∧
    (∀ k1 k2 : Nat, iterate_stream fs0 ad0 k1 = iterate_stream fs0 ad0 k2) :=
  C7_stream_order_and_restartable fs0 ad0 0 (by decide) 0 (by decide)
